import Mathlib

set_option maxHeartbeats 1000000
set_option maxRecDepth 10000

/-!
Shallow embedding of the HAR-to-API reverse-engineering backend
(`har_parser.py`, `curl_generator.py`, `code_generator.py`, `doc_generator.py`).

Conventions:
* Python strings are Lean `String`s (all relevant data is ASCII; `str.lower`
  is modelled by ASCII `Char.toLower`).
* Python dicts are insertion-ordered association lists (`List (String × String)`
  or `List (String × Json)`); assignment overwrites in place, keeping position,
  exactly like CPython dicts.
* Python stdlib parsers that the repository merely calls (`json.loads`,
  `urllib.parse.parse_qs`, `urllib.parse.urlparse`) are oracle parameters of
  the embedded functions; `json.dumps(·, indent=2)` is modelled concretely.
* Fallible dispatch (`raise ValueError`) is `Except String`.
-/

/-! ## Python string primitives -/

/-- Python `str.lower()` (ASCII). -/
def pyLower (s : String) : String := String.mk (s.toList.map Char.toLower)

/-- Python `str.startswith(pre)`. -/
def pyStartsWith (s pre : String) : Bool := pre.toList.isPrefixOf s.toList

/-- Python substring membership `pat in s`. -/
def strContains (s pat : String) : Bool :=
  (List.range (s.toList.length + 1)).any (fun i => pat.toList.isPrefixOf (s.toList.drop i))

/-- Substring relation used to state claims: `pat` occurs contiguously in `s`. -/
def ContainsSubstring (s pat : String) : Prop :=
  ∃ p q, s.toList = p ++ pat.toList ++ q

/-- Python `str.replace(pat, rep)` on character lists: replace every
non-overlapping occurrence, scanning left to right.  Structural recursion on
a fuel counter (one unit per character consumed, so the scanned list's length
is always sufficient; at least one character is consumed per step because the
`pat ≠ []` guard rules out the degenerate empty pattern, which Python treats
specially and which no call site of the repository uses). -/
def replaceListGo (pat rep : List Char) : Nat → List Char → List Char
  | _, [] => []
  | 0, l => l
  | fuel + 1, c :: cs =>
    if pat ≠ [] ∧ pat.isPrefixOf (c :: cs) then
      rep ++ replaceListGo pat rep fuel (cs.drop (pat.length - 1))
    else
      c :: replaceListGo pat rep fuel cs

/-- Python `str.replace` on character lists (adequate fuel supplied). -/
def replaceList (pat rep s : List Char) : List Char :=
  replaceListGo pat rep s.length s

/-- Python `str.replace` on strings. -/
def pyReplace (s pat rep : String) : String :=
  String.mk (replaceList pat.toList rep.toList s.toList)

/-- Python `str.title()` (ASCII): uppercase an alphabetic character that does
not follow an alphabetic character, lowercase the rest. -/
def pyTitleGo : Bool → List Char → List Char
  | _, [] => []
  | prevAlpha, c :: cs =>
    if c.isAlpha then
      (if prevAlpha then c.toLower else c.toUpper) :: pyTitleGo true cs
    else
      c :: pyTitleGo false cs

/-- Python `str.title()`. -/
def pyTitle (s : String) : String := String.mk (pyTitleGo false s.toList)

/-! ## Python dict primitives (insertion-ordered association lists) -/

/-- Python `d[k]` / `d.get(k)`: value of the (unique, by construction) binding. -/
def dictGet (d : List (String × String)) (k : String) : Option String :=
  (d.find? (fun p => p.1 == k)).map (fun p => p.2)

/-- Python `d.get(k, dflt)`. -/
def dictGetD (d : List (String × String)) (k : String) (dflt : String) : String :=
  (dictGet d k).getD dflt

/-- Python `k in d`. -/
def dictContains (d : List (String × String)) (k : String) : Bool :=
  d.any (fun p => p.1 == k)

/-- Python `d[k] = v`: overwrite in place when the key exists, else append. -/
def dictInsert (d : List (String × String)) (k v : String) : List (String × String) :=
  if d.any (fun p => p.1 == k) then
    d.map (fun p => if p.1 == k then (k, v) else p)
  else
    d ++ [(k, v)]

/-! ## har_parser.redact_sensitive_values -/

/-- Embedding of `har_parser.redact_sensitive_values`.  Python's
`if not value or len(value) < 8` collapses to `len(value) < 8`, since the empty
string has length `0 < 8`. -/
def redact_sensitive_values (value : String) : String :=
  if value.length < 8 then "****"
  else if value.length ≤ 12 then
    String.mk (value.toList.take 2 ++ List.replicate (value.length - 4) '*' ++
      value.toList.drop (value.length - 2))
  else
    String.mk (value.toList.take 4 ++ List.replicate (value.length - 8) '*' ++
      value.toList.drop (value.length - 4))

/-! ## JSON values and `json.dumps(·, indent=2)` -/

/-- JSON values as they occur in HAR captures.  Numeric payloads are modelled
as integers (no claim involves non-integer numerics). -/
inductive Json where
  | null
  | bool (b : Bool)
  | num (n : Int)
  | str (s : String)
  | arr (items : List Json)
  | obj (fields : List (String × Json))
deriving Repr

/-- Lowercase hexadecimal digit. -/
def hexDigit (n : Nat) : Char := if n < 10 then Char.ofNat (48 + n) else Char.ofNat (87 + n)

/-- Four lowercase hexadecimal digits. -/
def hex4 (n : Nat) : String :=
  String.mk [hexDigit (n / 4096 % 16), hexDigit (n / 256 % 16), hexDigit (n / 16 % 16),
    hexDigit (n % 16)]

/-- JSON string-character escaping as `json.dumps` performs it with the default
`ensure_ascii=True`: short escapes for the usual control characters, `\uXXXX`
(with surrogate pairs beyond the BMP) for other characters outside `0x20`–`0x7e`. -/
def jsonEscapeChar (c : Char) : String :=
  if c = '"' then "\\\""
  else if c = '\\' then "\\\\"
  else if c = '\n' then "\\n"
  else if c = '\t' then "\\t"
  else if c = '\r' then "\\r"
  else if c.toNat = 8 then "\\b"
  else if c.toNat = 12 then "\\f"
  else if c.toNat < 32 || 127 ≤ c.toNat then
    if c.toNat < 65536 then "\\u" ++ hex4 c.toNat
    else
      "\\u" ++ hex4 (55296 + (c.toNat - 65536) / 1024) ++
      "\\u" ++ hex4 (56320 + (c.toNat - 65536) % 1024)
  else String.singleton c

/-- A JSON string literal. -/
def jsonQuote (s : String) : String :=
  "\"" ++ String.join (s.toList.map jsonEscapeChar) ++ "\""

/-- A run of spaces. -/
def spaces (n : Nat) : String := String.mk (List.replicate n ' ')

mutual

/-- `json.dumps(·, indent=2)` at nesting depth `d` (the container's opening
bracket sits on the current line; members are indented `2 * (d + 1)`). -/
def jsonDumpAt : Nat → Json → String
  | _, Json.null => "null"
  | _, Json.bool true => "true"
  | _, Json.bool false => "false"
  | _, Json.num n => toString n
  | _, Json.str s => jsonQuote s
  | _, Json.arr [] => "[]"
  | d, Json.arr (x :: xs) =>
    "[\n" ++ String.intercalate ",\n" (jsonDumpArr (d + 1) (x :: xs)) ++ "\n" ++
      spaces (2 * d) ++ "]"
  | _, Json.obj [] => "\x7b\x7d"
  | d, Json.obj (f :: fs) =>
    "\x7b\n" ++ String.intercalate ",\n" (jsonDumpObj (d + 1) (f :: fs)) ++ "\n" ++
      spaces (2 * d) ++ "\x7d"

/-- Array members, one rendered line each. -/
def jsonDumpArr : Nat → List Json → List String
  | _, [] => []
  | d, x :: xs => (spaces (2 * d) ++ jsonDumpAt d x) :: jsonDumpArr d xs

/-- Object members, one rendered line each. -/
def jsonDumpObj : Nat → List (String × Json) → List String
  | _, [] => []
  | d, (k, v) :: fs => (spaces (2 * d) ++ jsonQuote k ++ ": " ++ jsonDumpAt d v) :: jsonDumpObj d fs

end

/-- `json.dumps(j, indent=2)`. -/
def jsonDumps2 (j : Json) : String := jsonDumpAt 0 j

/-- Python truthiness of a JSON value. -/
def jsonTruthy : Json → Bool
  | Json.null => false
  | Json.bool b => b
  | Json.num n => n != 0
  | Json.str s => s != ""
  | Json.arr xs => !xs.isEmpty
  | Json.obj fs => !fs.isEmpty

/-- Embedding of `code_generator._format_dict`: `"\x7b\x7d"` for falsy data, else
`json.dumps(data, indent=2)`. -/
def format_dict (data : Json) : String :=
  if !jsonTruthy data then "\x7b\x7d" else jsonDumps2 data

/-- A Python `dict[str, str]` viewed as a JSON object. -/
def strDictToJson (d : List (String × String)) : Json :=
  Json.obj (d.map (fun p => (p.1, Json.str p.2)))

/-- A `parse_qs` result (`dict[str, list[str]]`) viewed as a JSON object. -/
def formDictToJson (d : List (String × List String)) : Json :=
  Json.obj (d.map (fun p => (p.1, Json.arr (p.2.map Json.str))))

/-! ## HAR data model -/

/-- One `\x7bname, value\x7d` record of a HAR header or query-string list. -/
structure NVPair where
  name : String
  value : String
deriving Repr, DecidableEq

/-- The `postData` member of a HAR request. -/
structure PostData where
  mimeType : String
  text : String
deriving Repr, DecidableEq

/-- The `request` part of a HAR entry.  `postData := none` models an absent or
empty (hence falsy) `postData` member. -/
structure HarRequest where
  method : String
  url : String
  headers : List NVPair
  queryString : List NVPair
  postData : Option PostData
deriving Repr, DecidableEq

/-- The `response` part of a HAR entry, restricted to the fields the claimed
code reads. -/
structure HarResponse where
  headers : List NVPair
deriving Repr, DecidableEq

/-- One captured HTTP transaction. -/
structure HarEntry where
  request : HarRequest
  response : HarResponse
deriving Repr, DecidableEq

/-! ## har_parser: filtering -/

/-- Embedding of `har_parser._get_response_content_type`: value of the first
response header whose lowercased name is `content-type`, else `""`. -/
def get_response_content_type (response : HarResponse) : String :=
  match response.headers.find? (fun h => pyLower h.name == "content-type") with
  | some h => h.value
  | none => ""

/-- The non-API content-type fragments of `har_parser._is_api_request`. -/
def non_api_types : List String :=
  ["text/html", "text/css", "image/", "font/", "video/", "audio/",
   "application/javascript", "text/javascript"]

/-- Embedding of `har_parser._is_api_request`. -/
def is_api_request (entry : HarEntry) : Bool :=
  let content_type := get_response_content_type entry.response
  non_api_types.all (fun t => !strContains (pyLower content_type) t)

/-- Embedding of `har_parser.filter_api_requests` (accumulator loop with
`continue`). -/
def filter_api_requests : List HarEntry → List HarEntry
  | [] => []
  | e :: es => if is_api_request e then e :: filter_api_requests es else filter_api_requests es

/-! ## har_parser: body parsing -/

/-- The four body variants produced by `har_parser._parse_request_body`
(`\x7b"type", "content", "raw"\x7d` dicts in Python). -/
inductive BodyInfo where
  | bodyNone
  | bodyJson (content : Json) (raw : String)
  | bodyForm (content : List (String × List String)) (raw : String)
  | bodyText (content : String) (raw : String)
deriving Repr

/-- The `"type"` tag of a body-info dict. -/
def BodyInfo.tag : BodyInfo → String
  | BodyInfo.bodyNone => "none"
  | BodyInfo.bodyJson _ _ => "json"
  | BodyInfo.bodyForm _ _ => "form"
  | BodyInfo.bodyText _ _ => "text"

/-- The `body_info.get("raw", "")` access (the `none` variant dict carries no
`"raw"` key, so the default applies). -/
def BodyInfo.rawD : BodyInfo → String
  | BodyInfo.bodyNone => ""
  | BodyInfo.bodyJson _ r => r
  | BodyInfo.bodyForm _ r => r
  | BodyInfo.bodyText _ r => r

/-- The `body_info.get("content", \x7b\x7d)` access viewed as a JSON value. -/
def BodyInfo.contentJson : BodyInfo → Json
  | BodyInfo.bodyNone => Json.str ""
  | BodyInfo.bodyJson c _ => c
  | BodyInfo.bodyForm c _ => formDictToJson c
  | BodyInfo.bodyText c _ => Json.str c

/-- Embedding of `har_parser._parse_request_body`, parametric in the stdlib
parsers: `jsonLoads` models `json.loads` (`none` = `JSONDecodeError`) and
`parseQs` models `urllib.parse.parse_qs` (`none` = any exception). -/
def parse_request_body (jsonLoads : String → Option Json)
    (parseQs : String → Option (List (String × List String))) :
    Option PostData → BodyInfo
  | Option.none => BodyInfo.bodyNone
  | some pd =>
    let text := pd.text
    let mime_type := pd.mimeType
    let jsonTry : Option BodyInfo :=
      if strContains mime_type "application/json" && (text != "") then
        (jsonLoads text).map (fun j => BodyInfo.bodyJson j text)
      else Option.none
    match jsonTry with
    | some b => b
    | Option.none =>
      let formTry : Option BodyInfo :=
        if strContains mime_type "application/x-www-form-urlencoded" && (text != "") then
          (parseQs text).map (fun f => BodyInfo.bodyForm f text)
        else Option.none
      match formTry with
      | some b => b
      | Option.none => BodyInfo.bodyText text text

/-! ## har_parser: request-model extraction -/

/-- Result of `urllib.parse.urlparse` restricted to the fields the extractor
reads: scheme, netloc and path. -/
structure UrlParts where
  scheme : String
  netloc : String
  path : String
deriving Repr, DecidableEq

/-- Capture of a brace-delimited segment: characters up to the first closing
brace, plus the remainder after it (`none` when no closing brace follows). -/
def braceSpan : List Char → Option (List Char × List Char)
  | [] => Option.none
  | c :: cs =>
    if c = '\x7d' then some ([], cs)
    else
      match braceSpan cs with
      | some (cap, rest) => some (c :: cap, rest)
      | Option.none => Option.none

theorem braceSpan_rest_length : ∀ (l cap rest : List Char),
    braceSpan l = some (cap, rest) → rest.length < l.length := by
  intro l
  induction l with
  | nil => intro cap rest h; simp [braceSpan] at h
  | cons c cs ih =>
    intro cap rest h
    by_cases hc : c = '\x7d'
    · simp only [braceSpan, if_pos hc, Option.some.injEq, Prod.mk.injEq] at h
      rw [← h.2]
      simp only [List.length_cons]
      omega
    · simp only [braceSpan, if_neg hc] at h
      cases hs : braceSpan cs with
      | none => rw [hs] at h; simp at h
      | some p =>
        rw [hs] at h
        simp only [Option.some.injEq, Prod.mk.injEq] at h
        have hlt := ih p.1 p.2 (by rw [hs])
        rw [← h.2]
        simp only [List.length_cons]
        omega

/-- `re.findall` of the template pattern "brace, one or more non-brace
characters, brace" over the path, scanning left to right, non-overlapping:
on a match the scan resumes after the closing brace, on a failed candidate it
resumes right after the opening brace (as the regex engine does).  Structural
recursion on a fuel counter; `braceSpan_rest_length` shows each step consumes
at least one character, so the list's length is sufficient fuel. -/
def findBraceGo : Nat → List Char → List String
  | _, [] => []
  | 0, _ => []
  | fuel + 1, c :: cs =>
    if c = '\x7b' then
      match braceSpan cs with
      | some (cap, rest) =>
        if cap ≠ [] then
          String.mk cap :: findBraceGo fuel rest
        else findBraceGo fuel cs
      | Option.none => findBraceGo fuel cs
    else findBraceGo fuel cs

/-- The brace-template pass with adequate fuel. -/
def findBraceParams (l : List Char) : List String := findBraceGo l.length l

/-- `re.findall` of the pattern "colon, one or more non-slash characters"
(greedy, non-overlapping, left to right), with the same fuel discipline. -/
def findColonGo : Nat → List Char → List String
  | _, [] => []
  | 0, _ => []
  | fuel + 1, c :: cs =>
    if c = ':' then
      let cap := cs.takeWhile (fun d => d != '/')
      if cap ≠ [] then
        String.mk cap :: findColonGo fuel (cs.dropWhile (fun d => d != '/'))
      else findColonGo fuel cs
    else findColonGo fuel cs

/-- The colon-template pass with adequate fuel. -/
def findColonParams (l : List Char) : List String := findColonGo l.length l

/-- Model of `list(set(params))`.  CPython's set iteration order is
implementation-defined; the model keeps the first occurrence of each name.
No claim depends on this list. -/
def dedupFirst : List String → List String
  | [] => []
  | x :: xs => x :: (dedupFirst xs).filter (fun y => y != x)

/-- Embedding of `har_parser._extract_path_parameters`: the two regex passes,
concatenated, then de-duplicated. -/
def extract_path_parameters (path : String) : List String :=
  dedupFirst (findBraceParams path.toList ++ findColonParams path.toList)

/-- The canonical request model built by `har_parser.extract_request_details`. -/
structure RequestDetails where
  method : String
  url : String
  path : String
  host : String
  scheme : String
  headers : List (String × String)
  query_params : List (String × String)
  path_params : List String
  body : BodyInfo
deriving Repr

/-- Header names dropped by the extractor (compared against the lowercased
header name). -/
def problematic_header_names : List String :=
  ["host", ":authority", ":method", ":path", ":scheme", ":status"]

/-- The keep/drop test of the extractor's header loop: drop when the name
starts with a colon or its lowercase form is problematic. -/
def keepHeaderName (name : String) : Bool :=
  !(pyStartsWith name ":" || problematic_header_names.contains (pyLower name))

/-- The header-dict loop of `extract_request_details`. -/
def buildHeaderDict (headers : List NVPair) : List (String × String) :=
  headers.foldl (fun d h => if keepHeaderName h.name then dictInsert d h.name h.value else d) []

/-- Embedding of `har_parser.extract_request_details`, parametric in the
stdlib `urlparse` and the body parsers.  The query-parameter dict
comprehension is sequential insertion (last duplicate wins). -/
def extract_request_details (urlparse : String → UrlParts)
    (jsonLoads : String → Option Json)
    (parseQs : String → Option (List (String × List String)))
    (entry : HarEntry) : RequestDetails :=
  let request := entry.request
  let parsed_url := urlparse request.url
  { method := request.method
    url := request.url
    path := parsed_url.path
    host := parsed_url.netloc
    scheme := parsed_url.scheme
    headers := buildHeaderDict request.headers
    query_params := request.queryString.foldl (fun d p => dictInsert d p.name p.value) []
    path_params := extract_path_parameters parsed_url.path
    body := parse_request_body jsonLoads parseQs request.postData }

/-! ## har_parser.detect_authentication -/

/-- The `AuthInfo` dict produced by `har_parser.detect_authentication`. -/
structure AuthInfo where
  type : String
  location : String
  redacted_value : String
  original_value : String
deriving Repr, DecidableEq

/-- The header-name candidates of the API-key header scan, in source order. -/
def api_key_headers : List String :=
  ["x-api-key", "api-key", "x-auth-token", "authorization"]

/-- The query-parameter candidates of the API-key query scan, in source order. -/
def api_key_params : List String :=
  ["api_key", "apikey", "key", "token", "access_token"]

/-- The API-key header loop.  The Python guard is literally
`if value and not auth_info["type"] != "none"`, i.e.
`value ≠ "" && !(type ≠ "none")`; `break` stops the loop after the first
update, and a skipped candidate lets the loop continue. -/
def apiKeyHeaderScan (headers : List (String × String)) (auth : AuthInfo) :
    List String → AuthInfo
  | [] => auth
  | header_name :: rest =>
    if dictContains headers header_name then
      let value := dictGetD headers header_name ""
      if value != "" && !(auth.type != "none") then
        { type := "api_key", location := "header",
          redacted_value := redact_sensitive_values value, original_value := value }
      else apiKeyHeaderScan headers auth rest
    else apiKeyHeaderScan headers auth rest

/-- The API-key query-parameter loop (guard
`if value and auth_info["type"] == "none"`). -/
def apiKeyQueryScan (query_params : List (String × String)) (auth : AuthInfo) :
    List String → AuthInfo
  | [] => auth
  | param_name :: rest =>
    if dictContains query_params param_name then
      let value := dictGetD query_params param_name ""
      if value != "" && (auth.type == "none") then
        { type := "api_key", location := "query",
          redacted_value := redact_sensitive_values value, original_value := value }
      else apiKeyQueryScan query_params auth rest
    else apiKeyQueryScan query_params auth rest

/-- The `Authorization`-header phase of `detect_authentication`: the initial
all-`none` record, updated when the lowercased header value starts with
`bearer ` (token = exact-case global `replace("Bearer ", "")`) or `basic `. -/
def authorization_header_check (headers : List (String × String)) : AuthInfo :=
  let auth_header := pyLower (dictGetD headers "Authorization" "")
  if pyStartsWith auth_header "bearer " then
    let token := pyReplace (dictGetD headers "Authorization" "") "Bearer " ""
    { type := "bearer_token", location := "header",
      redacted_value := redact_sensitive_values token, original_value := token }
  else if pyStartsWith auth_header "basic " then
    { type := "basic_auth", location := "header",
      redacted_value := "Basic ********",
      original_value := dictGetD headers "Authorization" "" }
  else
    { type := "none", location := "none", redacted_value := "", original_value := "" }

/-- Embedding of `har_parser.detect_authentication`: the `Authorization`
header phase, then the API-key header loop, then the API-key query loop. -/
def detect_authentication (request_details : RequestDetails) : AuthInfo :=
  apiKeyQueryScan request_details.query_params
    (apiKeyHeaderScan request_details.headers
      (authorization_header_check request_details.headers) api_key_headers)
    api_key_params

/-! ## curl_generator -/

/-- Python `str.upper()` (ASCII). -/
def pyUpper (s : String) : String := String.mk (s.toList.map Char.toUpper)

/-- The parts list built by `curl_generator.generate_curl_command` before
joining: the `curl` word with the quoted URL, the optional `-X` method, one
`-H` per non-pseudo header (single quotes escaped by quote-splicing), and the
optional `--data-raw` body. -/
def curl_parts (entry : HarEntry) : List String :=
  let request := entry.request
  let method := request.method
  let url := request.url
  let headers := request.headers
  ["curl \x27" ++ url ++ "\x27"] ++
    (if method != "GET" then ["-X " ++ method] else []) ++
    headers.filterMap (fun header =>
      if pyStartsWith header.name ":" then Option.none
      else some ("-H \x27" ++ header.name ++ ": " ++
        pyReplace header.value "\x27" "\x27\"\x27\"\x27" ++ "\x27")) ++
    (match request.postData with
     | Option.none => []
     | some pd =>
       if pd.text != "" then
         ["--data-raw \x27" ++ pyReplace pd.text "\x27" "\x27\"\x27\"\x27" ++ "\x27"]
       else [])

/-- Embedding of `curl_generator.generate_curl_command`: the sequentially
appended parts joined with backslash, newline and two spaces. -/
def generate_curl_command (entry : HarEntry) : String :=
  String.intercalate " \\\n  " (curl_parts entry)

/-! ## code_generator -/

/-- Embedding of `code_generator._build_python_body`. -/
def build_python_body (body_info : BodyInfo) : List String :=
  match body_info with
  | BodyInfo.bodyNone => []
  | BodyInfo.bodyJson content _ =>
    ["# Request body", "data = " ++ format_dict content]
  | BodyInfo.bodyForm content _ =>
    ["# Request body (form data)", "data = " ++ format_dict (formDictToJson content)]
  | BodyInfo.bodyText _ raw =>
    ["# Request body", "data = \"\"\"" ++ raw ++ "\"\"\""]

/-- Embedding of `code_generator._generate_python_code`.  The two DEBUG
`print` calls write only to stdout and are omitted: the embedding models the
returned string. -/
def generate_python_code (request_details : RequestDetails) : String :=
  let method := pyLower request_details.method
  let url := request_details.url
  let headers := request_details.headers
  let query_params := request_details.query_params
  let body_info := request_details.body
  if url = "" then "# Error: No URL provided in request details"
  else
    let lines : List String := ["import requests", ""]
    let lines := lines ++
      (if query_params ≠ [] then
        ["# Query parameters", "params = " ++ format_dict (strDictToJson query_params), ""]
      else [])
    let lines := lines ++
      (if headers ≠ [] then
        ["# Headers", "headers = " ++ format_dict (strDictToJson headers), ""]
      else [])
    let body_lines := build_python_body body_info
    let lines := lines ++ (if body_lines ≠ [] then body_lines ++ [""] else [])
    let request_parts := ["\x27" ++ url ++ "\x27"] ++
      (if query_params ≠ [] then ["params=params"] else []) ++
      (if headers ≠ [] then ["headers=headers"] else []) ++
      (if body_info.tag != "none" then
        (if body_info.tag == "json" then ["json=data"] else ["data=data"])
      else [])
    let lines := lines ++ ["# Make request",
      "response = requests." ++ method ++ "(" ++ String.intercalate ", " request_parts ++ ")", ""]
    let lines := lines ++ ["# Handle response",
      "print(f\x27Status: \x7bresponse.status_code\x7d\x27)",
      "print(f\x27Response: \x7bresponse.text\x7d\x27)"]
    String.intercalate "\n" lines

/-- Embedding of `code_generator._build_javascript_body`. -/
def build_javascript_body (body_info : BodyInfo) : List String :=
  match body_info with
  | BodyInfo.bodyNone => []
  | BodyInfo.bodyJson content _ =>
    ["// Request body", "const body = JSON.stringify(" ++ format_dict content ++ ");"]
  | BodyInfo.bodyForm content _ =>
    ["// Request body (form data)",
     "const body = new URLSearchParams(" ++ format_dict (formDictToJson content) ++ ");"]
  | BodyInfo.bodyText _ raw =>
    ["// Request body", "const body = `" ++ raw ++ "`;"]

/-- Embedding of `code_generator._generate_javascript_code`. -/
def generate_javascript_code (request_details : RequestDetails) : String :=
  let method := pyUpper request_details.method
  let url := request_details.url
  let headers := request_details.headers
  let query_params := request_details.query_params
  let body_info := request_details.body
  if url = "" then "// Error: No URL provided in request details"
  else
    let lines : List String :=
      (if query_params ≠ [] then
        ["// Query parameters",
         "const params = " ++ format_dict (strDictToJson query_params) ++ ";",
         "const url = new URL(\x27" ++ url ++ "\x27);",
         "Object.keys(params).forEach(key => url.searchParams.append(key, params[key]));",
         ""]
      else
        ["const url = \x27" ++ url ++ "\x27;", ""])
    let lines := lines ++
      (if headers ≠ [] then
        ["// Headers", "const headers = " ++ format_dict (strDictToJson headers) ++ ";", ""]
      else [])
    let body_lines := build_javascript_body body_info
    let lines := lines ++ (if body_lines ≠ [] then body_lines ++ [""] else [])
    let options : List String :=
      (if method != "GET" then ["method: \x27" ++ method ++ "\x27"] else []) ++
      (if headers ≠ [] then ["headers: headers"] else []) ++
      (if body_info.tag != "none" then ["body: body"] else [])
    let fetch_parts := ["url"] ++
      (if options ≠ [] then ["\x7b" ++ String.intercalate ", " options ++ "\x7d"] else [])
    let lines := lines ++ ["// Make request",
      "fetch(" ++ String.intercalate ", " fetch_parts ++ ")",
      "  .then(response => response.json())",
      "  .then(data => console.log(data))",
      "  .catch(error => console.error(\x27Error:\x27, error));"]
    String.intercalate "\n" lines

/-- Embedding of `code_generator._build_go_body`. -/
def build_go_body (body_info : BodyInfo) : List String :=
  match body_info with
  | BodyInfo.bodyNone => []
  | BodyInfo.bodyJson content _ =>
    ["    // Request body", "    body := strings.NewReader(`" ++ format_dict content ++ "`)"]
  | BodyInfo.bodyForm content _ =>
    ["    // Request body (form data)",
     "    body := strings.NewReader(`" ++ format_dict (formDictToJson content) ++ "`)"]
  | BodyInfo.bodyText _ raw =>
    ["    // Request body", "    body := strings.NewReader(`" ++ raw ++ "`)"]

/-- Embedding of `code_generator._generate_go_code`. -/
def generate_go_code (request_details : RequestDetails) : String :=
  let method := pyUpper request_details.method
  let url := request_details.url
  let headers := request_details.headers
  let query_params := request_details.query_params
  let body_info := request_details.body
  if url = "" then "// Error: No URL provided in request details"
  else
    let lines : List String :=
      ["package main", "", "import (", "    \"fmt\"", "    \"io\"", "    \"net/http\"",
       "    \"net/url\"", "    \"strings\"", ")", ""]
    let lines := lines ++
      ["func main() \x7b", "    // Create HTTP client", "    client := &http.Client\x7b\x7d", ""]
    let lines := lines ++
      (if query_params ≠ [] then
        ["    // Query parameters", "    baseURL := \"" ++ url ++ "\"",
         "    u, _ := url.Parse(baseURL)", "    q := u.Query()"] ++
        query_params.map (fun p => "    q.Set(\"" ++ p.1 ++ "\", \"" ++ p.2 ++ "\")") ++
        ["    u.RawQuery = q.Encode()", ""]
      else
        ["    requestURL := \"" ++ url ++ "\"", ""])
    let body_lines := build_go_body body_info
    let lines := lines ++ (if body_lines ≠ [] then body_lines ++ [""] else [])
    let lines := lines ++ ["    // Create request"] ++
      (if body_info.tag != "none" then
        ["    req, _ := http.NewRequest(\"" ++ method ++ "\", requestURL, body)"]
      else
        ["    req, _ := http.NewRequest(\"" ++ method ++ "\", requestURL, nil)"])
    let lines := lines ++
      (if headers ≠ [] then
        ["    // Headers"] ++
        headers.map (fun p => "    req.Header.Set(\"" ++ p.1 ++ "\", \"" ++ p.2 ++ "\")") ++
        [""]
      else [])
    let lines := lines ++
      ["    // Execute request", "    resp, err := client.Do(req)", "    if err != nil \x7b",
       "        panic(err)", "    \x7d", "    defer resp.Body.Close()", "",
       "    // Read response", "    body, _ := io.ReadAll(resp.Body)",
       "    fmt.Printf(\"Status: %s\\n\", resp.Status)",
       "    fmt.Printf(\"Response: %s\\n\", string(body))", "\x7d"]
    String.intercalate "\n" lines

/-- Embedding of `code_generator.generate_code`; `raise ValueError` is the
`Except.error` branch. -/
def generate_code (request_details : RequestDetails) (language : String) :
    Except String String :=
  if language == "python" then Except.ok (generate_python_code request_details)
  else if language == "javascript" then Except.ok (generate_javascript_code request_details)
  else if language == "go" then Except.ok (generate_go_code request_details)
  else Except.error ("Unsupported language: " ++ language)

/-! ## doc_generator -/

/-- Embedding of `doc_generator._generate_curl_example`: reconstruct a
HAR-shaped entry from the canonical model and delegate to the curl generator.
The mock entry's `postData` member receives the body-info dict, which is a
non-empty (hence truthy) dict carrying no `"text"` key; observationally for
the curl generator that is `some ⟨"", ""⟩`.  The mock entry has no `response`
member; the curl generator never reads one, so an empty response stands in. -/
def generate_curl_example (request_details : RequestDetails) : String :=
  generate_curl_command
    { request :=
        { method := request_details.method
          url := request_details.url
          headers := request_details.headers.map (fun p => { name := p.1, value := p.2 })
          queryString := request_details.query_params.map (fun p => { name := p.1, value := p.2 })
          postData := some { mimeType := "", text := "" } }
      response := { headers := [] } }

/-- Embedding of `doc_generator._generate_markdown_doc`. -/
def generate_markdown_doc (request_details : RequestDetails) (auth_info : AuthInfo) : String :=
  let method := request_details.method
  let url := request_details.url
  let path := request_details.path
  let headers := request_details.headers
  let query_params := request_details.query_params
  let body_info := request_details.body
  let lines : List String :=
    ["# API Documentation", "", "## " ++ method ++ " " ++ path, "",
     "**URL:** `" ++ url ++ "`", ""]
  let lines := lines ++
    ["### Description", "", "This endpoint was reverse-engineered from a HAR file capture.", ""]
  let lines := lines ++
    (if auth_info.type != "none" then
      ["### Authentication", "",
       "**Type:** " ++ pyTitle (pyReplace auth_info.type "_" " "),
       "**Location:** " ++ auth_info.location, ""] ++
      (if auth_info.redacted_value != "" then
        ["**Example:**", "```", auth_info.redacted_value, "```", ""]
      else [])
    else [])
  let lines := lines ++
    (if query_params ≠ [] then
      ["### Query Parameters", "", "| Parameter | Type | Required | Description |",
       "|-----------|------|----------|-------------|"] ++
      query_params.map (fun p =>
        "| `" ++ p.1 ++ "` | string | No | Example: `" ++ p.2 ++ "` |") ++
      [""]
    else [])
  let lines := lines ++
    (if headers ≠ [] then
      ["### Headers", "", "| Header | Value |", "|--------|-------|"] ++
      headers.map (fun p => "| `" ++ p.1 ++ "` | `" ++ p.2 ++ "` |") ++
      [""]
    else [])
  let lines := lines ++
    (if body_info.tag != "none" then
      ["### Request Body", "", "**Content Type:** " ++ body_info.tag, ""] ++
      (if body_info.tag == "json" then
        ["**Example:**", "```json", jsonDumps2 body_info.contentJson, "```", ""]
      else
        ["**Example:**", "```", body_info.rawD, "```", ""])
    else [])
  let lines := lines ++
    ["### cURL Example", "", "```bash", generate_curl_example request_details, "```", ""]
  let lines := lines ++
    ["### Response", "", "The API returns a JSON response with the requested data.", "",
     "**Example Response:**", "```json", "\x7b", "  \"status\": \"success\",",
     "  \"data\": \x7b", "    \"message\": \"Request successful\"", "  \x7d", "\x7d", "```", ""]
  String.intercalate "\n" lines

/-- Embedding of `doc_generator._build_openapi_parameters`. -/
def build_openapi_parameters (query_params : List (String × String)) : Json :=
  Json.arr (query_params.map (fun p =>
    Json.obj [("name", Json.str p.1), ("in", Json.str "query"),
      ("required", Json.bool false), ("schema", Json.obj [("type", Json.str "string")]),
      ("example", Json.str p.2)]))

/-- Embedding of `doc_generator._build_openapi_request_body` (the Python
`None` returned for a `none` body serializes as JSON `null`). -/
def build_openapi_request_body (body_info : BodyInfo) : Json :=
  if body_info.tag == "none" then Json.null
  else
    let content_type :=
      if body_info.tag == "form" then "application/x-www-form-urlencoded"
      else if body_info.tag == "text" then "text/plain"
      else "application/json"
    Json.obj [("required", Json.bool true),
      ("content", Json.obj [(content_type,
        Json.obj [("schema", Json.obj [("type",
          Json.str (if body_info.tag == "json" then "object" else "string"))]),
          ("example", body_info.contentJson)])])]

/-- Embedding of `doc_generator._build_security_schemes`. -/
def build_security_schemes (auth_info : AuthInfo) : Json :=
  if auth_info.type == "bearer_token" then
    Json.obj [("bearer_token", Json.obj [("type", Json.str "http"),
      ("scheme", Json.str "bearer"), ("bearerFormat", Json.str "JWT")])]
  else if auth_info.type == "basic_auth" then
    Json.obj [("basic_auth", Json.obj [("type", Json.str "http"),
      ("scheme", Json.str "basic")])]
  else if auth_info.type == "api_key" then
    Json.obj [("api_key", Json.obj [("type", Json.str "apiKey"),
      ("in", Json.str auth_info.location), ("name", Json.str "X-API-Key")])]
  else Json.obj []

/-- Embedding of `doc_generator._generate_openapi_doc`.  The two
post-construction dict mutations (`spec["components"] = ...` and the
`security` member of the operation) append their keys at the end of the
respective insertion-ordered dicts, which is where the conditional members
are placed here. -/
def generate_openapi_doc (request_details : RequestDetails) (auth_info : AuthInfo) : String :=
  let method := pyLower request_details.method
  let path := request_details.path
  let query_params := request_details.query_params
  let body_info := request_details.body
  let operation : Json :=
    Json.obj ([("summary", Json.str (pyUpper method ++ " " ++ path)),
      ("description", Json.str "Endpoint reverse-engineered from HAR file"),
      ("parameters", build_openapi_parameters query_params),
      ("requestBody", build_openapi_request_body body_info),
      ("responses", Json.obj [("200",
        Json.obj [("description", Json.str "Successful response"),
          ("content", Json.obj [("application/json", Json.obj [("schema",
            Json.obj [("type", Json.str "object"),
              ("properties", Json.obj [("status", Json.obj [("type", Json.str "string")]),
                ("data", Json.obj [("type", Json.str "object")])])])])])])])] ++
      (if auth_info.type != "none" then
        [("security", Json.arr [Json.obj [(auth_info.type, Json.arr [])]])]
      else []))
  let spec : Json :=
    Json.obj ([("openapi", Json.str "3.0.0"),
      ("info", Json.obj [("title", Json.str "Reverse Engineered API"),
        ("description", Json.str "API documentation generated from HAR file analysis"),
        ("version", Json.str "1.0.0")]),
      ("servers", Json.arr [Json.obj [("url",
        Json.str (request_details.scheme ++ "://" ++ request_details.host)),
        ("description", Json.str "API Server")]]),
      ("paths", Json.obj [(path, Json.obj [(method, operation)])])] ++
      (if auth_info.type != "none" then
        [("components", Json.obj [("securitySchemes", build_security_schemes auth_info)])]
      else []))
  jsonDumps2 spec

/-- Embedding of `doc_generator.generate_documentation`; `raise ValueError`
is the `Except.error` branch. -/
def generate_documentation (request_details : RequestDetails) (auth_info : AuthInfo)
    (format_type : String) : Except String String :=
  if format_type == "markdown" then
    Except.ok (generate_markdown_doc request_details auth_info)
  else if format_type == "openapi" then
    Except.ok (generate_openapi_doc request_details auth_info)
  else Except.error ("Unsupported format: " ++ format_type)

/-- Specification-side helper: the value of the last occurrence of a header
name in a HAR header list (the binding that survives duplicate names in an
insertion-ordered dict). -/
def specLastVal (headers : List NVPair) (k : String) : Option String :=
  (headers.reverse.find? (fun h => h.name == k)).map (fun h => h.value)

/-! ## General lemmas -/

theorem strContains_iff (s pat : String) :
    strContains s pat = true ↔ ContainsSubstring s pat := by
  unfold strContains ContainsSubstring
  rw [List.any_eq_true]
  constructor
  · rintro ⟨i, hi, hpre⟩
    rw [List.isPrefixOf_iff_prefix] at hpre
    obtain ⟨t, ht⟩ := hpre
    refine ⟨s.toList.take i, t, ?_⟩
    conv_lhs => rw [← List.take_append_drop i s.toList]
    rw [← ht, List.append_assoc]
  · rintro ⟨p, q, hpq⟩
    refine ⟨p.length, ?_, ?_⟩
    · rw [List.mem_range, hpq]
      simp only [List.length_append]
      omega
    · rw [List.isPrefixOf_iff_prefix, hpq, List.append_assoc, List.drop_left]
      exact ⟨q, rfl⟩

instance (s pat : String) : Decidable (ContainsSubstring s pat) :=
  decidable_of_iff (strContains s pat = true) (strContains_iff s pat)

theorem maskShape (L : List Char) (k : Nat) (hk : 2 * k ≤ L.length) :
    (L.take k ++ List.replicate (L.length - 2 * k) '*' ++ L.drop (L.length - k)).length
        = L.length ∧
    (L.take k ++ List.replicate (L.length - 2 * k) '*' ++ L.drop (L.length - k)).take k
        = L.take k ∧
    (L.take k ++ List.replicate (L.length - 2 * k) '*' ++
        L.drop (L.length - k)).drop (L.length - k) = L.drop (L.length - k) ∧
    ∀ i, k ≤ i → i < L.length - k →
      (L.take k ++ List.replicate (L.length - 2 * k) '*' ++
        L.drop (L.length - k)).getD i ' ' = '*' := by
  have hA : (L.take k).length = k := by
    simp only [List.length_take]
    omega
  have hB : (List.replicate (L.length - 2 * k) '*').length = L.length - 2 * k :=
    List.length_replicate _ _
  have hC : (L.drop (L.length - k)).length = k := by
    simp only [List.length_drop]
    omega
  refine ⟨?_, ?_, ?_, ?_⟩
  · simp only [List.length_append, hA, hB, hC]
    omega
  · rw [List.append_assoc, List.take_left' hA]
  · rw [List.drop_left']
    simp only [List.length_append, hA, hB]
    omega
  · intro i hik hin
    rw [List.append_assoc, List.getD_append_right _ _ _ _ (by rw [hA]; exact hik), hA]
    rw [List.getD_append _ _ _ _ (by rw [hB]; omega)]
    have hlt : i - k < L.length - 2 * k := by omega
    simp [List.getD, List.getElem?_replicate, hlt]

/-! ## Claim C4 -/

/-- C4: `redact_sensitive_values` is deterministic and length-dependent:
inputs of fewer than 8 characters (the empty string included) map to the fixed
four-character mask; inputs of length 8–12 keep exactly the first and last 2
characters with asterisks in between; inputs longer than 12 keep exactly the
first and last 4; for every input of length at least 8 the output has the
input's length, preserves exactly the prefix and suffix of the appropriate
width, and holds the mask character at every other position. -/
theorem C4_redact_rules (v : String) :
    (v.length < 8 → redact_sensitive_values v = "****") ∧
    (8 ≤ v.length → v.length ≤ 12 →
      (redact_sensitive_values v).toList =
        v.toList.take 2 ++ List.replicate (v.length - 4) '*' ++
          v.toList.drop (v.length - 2)) ∧
    (12 < v.length →
      (redact_sensitive_values v).toList =
        v.toList.take 4 ++ List.replicate (v.length - 8) '*' ++
          v.toList.drop (v.length - 4)) ∧
    (8 ≤ v.length →
      (redact_sensitive_values v).length = v.length ∧
      (redact_sensitive_values v).toList.take (if v.length ≤ 12 then 2 else 4) =
        v.toList.take (if v.length ≤ 12 then 2 else 4) ∧
      (redact_sensitive_values v).toList.drop
          (v.length - (if v.length ≤ 12 then 2 else 4)) =
        v.toList.drop (v.length - (if v.length ≤ 12 then 2 else 4)) ∧
      ∀ i, (if v.length ≤ 12 then 2 else 4) ≤ i →
        i < v.length - (if v.length ≤ 12 then 2 else 4) →
        (redact_sensitive_values v).toList.getD i ' ' = '*') := by
  refine ⟨?_, ?_, ?_, ?_⟩
  · intro h
    simp [redact_sensitive_values, h]
  · intro h8 h12
    simp only [redact_sensitive_values, if_neg (by omega : ¬ v.length < 8), if_pos h12]
    rfl
  · intro h12
    simp only [redact_sensitive_values, if_neg (by omega : ¬ v.length < 8),
      if_neg (by omega : ¬ v.length ≤ 12)]
    rfl
  · intro h8
    by_cases h12 : v.length ≤ 12
    · simp only [if_pos h12]
      have heq : (redact_sensitive_values v).toList =
          v.toList.take 2 ++ List.replicate (v.toList.length - 2 * 2) '*' ++
            v.toList.drop (v.toList.length - 2) := by
        simp only [redact_sensitive_values, if_neg (by omega : ¬ v.length < 8), if_pos h12]
        rfl
      obtain ⟨hL, hT, hD, hM⟩ := maskShape v.toList 2 (by
        have : v.toList.length = v.length := rfl
        omega)
      refine ⟨?_, ?_, ?_, ?_⟩
      · have hx : (redact_sensitive_values v).length =
            (redact_sensitive_values v).toList.length := rfl
        rw [hx, heq]
        exact hL
      · rw [heq]
        exact hT
      · rw [heq]
        exact hD
      · intro i hi hin
        rw [heq]
        exact hM i hi hin
    · simp only [if_neg h12]
      have heq : (redact_sensitive_values v).toList =
          v.toList.take 4 ++ List.replicate (v.toList.length - 2 * 4) '*' ++
            v.toList.drop (v.toList.length - 4) := by
        simp only [redact_sensitive_values, if_neg (by omega : ¬ v.length < 8), if_neg h12]
        rfl
      obtain ⟨hL, hT, hD, hM⟩ := maskShape v.toList 4 (by
        have : v.toList.length = v.length := rfl
        omega)
      refine ⟨?_, ?_, ?_, ?_⟩
      · have hx : (redact_sensitive_values v).length =
            (redact_sensitive_values v).toList.length := rfl
        rw [hx, heq]
        exact hL
      · rw [heq]
        exact hT
      · rw [heq]
        exact hD
      · intro i hi hin
        rw [heq]
        exact hM i hi hin

/-- Witness for C4 at concrete inputs of lengths 3 and 10. -/
theorem C4_redact_rules_witness :
    redact_sensitive_values "abc" = "****" ∧
    (redact_sensitive_values "abcdefghij").toList =
      "abcdefghij".toList.take 2 ++ List.replicate ("abcdefghij".length - 4) '*' ++
        "abcdefghij".toList.drop ("abcdefghij".length - 2) :=
  ⟨(C4_redact_rules "abc").1 (by decide),
   (C4_redact_rules "abcdefghij").2.1 (by decide) (by decide)⟩

/-! ## Claim C2 -/

/-- C2: on an `Authorization` header whose value starts case-insensitively
with `bearer `, detection does classify as `bearer_token` in the header, but
the recorded token is NOT the remainder after the prefix: the code removes
exact-case occurrences of `Bearer ` everywhere in the value instead.  For the
value `bearer abc` nothing is removed (the prefix has the wrong case), so the
token stays `bearer abc` instead of the claimed `abc`; for
`Bearer xyBearer zw` an interior occurrence is deleted as well. -/
theorem C2_bearer_prefix_not_stripped :
    let rd : RequestDetails :=
      { method := "GET", url := "https://x.test/a", path := "/a", host := "x.test",
        scheme := "https", headers := [("Authorization", "bearer abc")],
        query_params := [], path_params := [], body := BodyInfo.bodyNone }
    let rd2 : RequestDetails :=
      { method := "GET", url := "https://x.test/a", path := "/a", host := "x.test",
        scheme := "https", headers := [("Authorization", "Bearer xyBearer zw")],
        query_params := [], path_params := [], body := BodyInfo.bodyNone }
    pyStartsWith (pyLower "bearer abc") "bearer " = true ∧
    detect_authentication rd =
      { type := "bearer_token", location := "header",
        redacted_value := "be******bc", original_value := "bearer abc" } ∧
    "bearer abc" ≠ "abc" ∧
    (detect_authentication rd2).original_value = "xyzw" := by
  exact ⟨by decide, by decide, by decide, by decide⟩

/-! ## Claim C9 -/

/-- C9: `generate_code` fails with an error for every language tag other than
`python`, `javascript`, `go`, and `generate_documentation` fails with an error
for every format tag other than `markdown`, `openapi`; for a supported
language with an empty URL, `generate_code` instead returns the
language-appropriate error-comment string. -/
theorem C9_unsupported_targets_error (rd : RequestDetails) (auth : AuthInfo)
    (lang fmt : String) :
    (lang ∉ (["python", "javascript", "go"] : List String) →
      generate_code rd lang = Except.error ("Unsupported language: " ++ lang)) ∧
    (fmt ∉ (["markdown", "openapi"] : List String) →
      generate_documentation rd auth fmt =
        Except.error ("Unsupported format: " ++ fmt)) ∧
    (rd.url = "" →
      generate_code rd "python" = Except.ok "# Error: No URL provided in request details" ∧
      generate_code rd "javascript" =
        Except.ok "// Error: No URL provided in request details" ∧
      generate_code rd "go" = Except.ok "// Error: No URL provided in request details") := by
  refine ⟨?_, ?_, ?_⟩
  · intro h
    have h1 : lang ≠ "python" := fun e => h (by simp [e])
    have h2 : lang ≠ "javascript" := fun e => h (by simp [e])
    have h3 : lang ≠ "go" := fun e => h (by simp [e])
    simp [generate_code, h1, h2, h3]
  · intro h
    have h1 : fmt ≠ "markdown" := fun e => h (by simp [e])
    have h2 : fmt ≠ "openapi" := fun e => h (by simp [e])
    simp [generate_documentation, h1, h2]
  · intro hurl
    refine ⟨?_, ?_, ?_⟩
    · simp [generate_code, generate_python_code, hurl]
    · simp [generate_code, generate_javascript_code, hurl]
    · simp [generate_code, generate_go_code, hurl]

/-- Witness for C9: the tags `ruby` and `html` are rejected, and an
empty-URL model yields the Python comment string. -/
theorem C9_unsupported_targets_error_witness :
    (generate_code
        { method := "GET", url := "", path := "", host := "", scheme := "",
          headers := [], query_params := [], path_params := [],
          body := BodyInfo.bodyNone } "ruby" =
      Except.error ("Unsupported language: " ++ "ruby")) ∧
    (generate_documentation
        { method := "GET", url := "", path := "", host := "", scheme := "",
          headers := [], query_params := [], path_params := [],
          body := BodyInfo.bodyNone }
        { type := "none", location := "none", redacted_value := "", original_value := "" }
        "html" =
      Except.error ("Unsupported format: " ++ "html")) ∧
    (generate_code
        { method := "GET", url := "", path := "", host := "", scheme := "",
          headers := [], query_params := [], path_params := [],
          body := BodyInfo.bodyNone } "python" =
      Except.ok "# Error: No URL provided in request details") := by
  have h := C9_unsupported_targets_error
    { method := "GET", url := "", path := "", host := "", scheme := "",
      headers := [], query_params := [], path_params := [], body := BodyInfo.bodyNone }
    { type := "none", location := "none", redacted_value := "", original_value := "" }
    "ruby" "html"
  exact ⟨h.1 (by decide), h.2.1 (by decide), (h.2.2 rfl).1⟩

/-! ## Claim C5 -/

theorem filterMap_guard {α β : Type} (p : α → Bool) (f : α → β) (l : List α) :
    l.filterMap (fun a => if p a then Option.none else some (f a)) =
    (l.filter (fun a => !p a)).map f := by
  induction l with
  | nil => rfl
  | cons a l ih =>
    by_cases h : p a = true
    · simp [List.filterMap_cons, List.filter_cons, h, ih]
    · simp [List.filterMap_cons, List.filter_cons, h, ih]

theorem replaceListGo_singleton (q : Char) (rep : List Char) :
    ∀ fuel s, s.length ≤ fuel →
      replaceListGo [q] rep fuel s =
        s.flatMap (fun c => if c = q then rep else [c]) := by
  intro fuel
  induction fuel with
  | zero =>
    intro s hs
    have hnil : s = [] := List.eq_nil_of_length_eq_zero (by omega)
    subst hnil
    rfl
  | succ fuel ih =>
    intro s hs
    cases s with
    | nil => rfl
    | cons c cs =>
      have hcs : cs.length ≤ fuel := by
        simp only [List.length_cons] at hs
        omega
      simp only [replaceListGo]
      by_cases hcq : c = q
      · rw [if_pos ⟨by simp, by simp [List.isPrefixOf, hcq]⟩]
        have hd : cs.drop ([q].length - 1) = cs := by simp
        rw [hd, ih cs hcs]
        simp [hcq]
      · rw [if_neg]
        · rw [ih cs hcs]
          simp [hcq]
        · rintro ⟨-, hpre⟩
          simp [List.isPrefixOf] at hpre
          exact hcq hpre.symm

theorem replaceList_singleton (q : Char) (rep : List Char) (s : List Char) :
    replaceList [q] rep s = s.flatMap (fun c => if c = q then rep else [c]) :=
  replaceListGo_singleton q rep s.length s (le_refl _)

/-- C5: the curl projection emits `-X` exactly for non-GET methods, keeps
exactly the headers whose names do not start with a colon (escaping single
quotes by shell quote-splicing in values and in the body), and joins the parts
with a backslash-newline-two-spaces continuation; on the specification's
example entry the output is the exact two-line command. -/
theorem C5_curl_projection (entry : HarEntry) :
    generate_curl_command entry = String.intercalate " \\\n  " (curl_parts entry) ∧
    curl_parts entry =
      ["curl \x27" ++ entry.request.url ++ "\x27"] ++
        (if entry.request.method ≠ "GET" then ["-X " ++ entry.request.method] else []) ++
        ((entry.request.headers.filter (fun h => !(pyStartsWith h.name ":"))).map
          (fun h => "-H \x27" ++ h.name ++ ": " ++
            pyReplace h.value "\x27" "\x27\"\x27\"\x27" ++ "\x27")) ++
        (match entry.request.postData with
         | Option.none => []
         | some pd =>
           if pd.text ≠ "" then
             ["--data-raw \x27" ++ pyReplace pd.text "\x27" "\x27\"\x27\"\x27" ++ "\x27"]
           else []) ∧
    (∀ v : String, (pyReplace v "\x27" "\x27\"\x27\"\x27").toList =
      v.toList.flatMap
        (fun c => if c = '\x27' then "\x27\"\x27\"\x27".toList else [c])) ∧
    generate_curl_command
      { request :=
          { method := "GET"
            url := "https://x.test/a?b=1"
            headers := [{ name := "Authorization", value := "Bearer 1234567890" }]
            queryString := [{ name := "b", value := "1" }]
            postData := Option.none }
        response := { headers := [] } } =
      "curl \x27https://x.test/a?b=1\x27 \\\n  -H \x27Authorization: Bearer 1234567890\x27" := by
  refine ⟨rfl, ?_, ?_, by decide⟩
  · simp only [curl_parts]
    rw [filterMap_guard]
    by_cases hm : entry.request.method = "GET"
    · simp only [hm, bne_self_eq_false, ne_eq, not_true_eq_false, if_false, ite_false]
      cases hp : entry.request.postData with
      | none => rfl
      | some pd =>
        by_cases ht : pd.text = ""
        · simp [ht]
        · simp [ht]
    · have hb : (entry.request.method != "GET") = true := by
        simp [bne_iff_ne, hm]
      simp only [hb, ne_eq, hm, not_false_eq_true, if_true, ite_true]
      cases hp : entry.request.postData with
      | none => rfl
      | some pd =>
        by_cases ht : pd.text = ""
        · simp [ht]
        · simp [ht]
  · intro v
    show replaceList ['\x27'] "\x27\"\x27\"\x27".toList v.toList =
      v.toList.flatMap (fun c => if c = '\x27' then "\x27\"\x27\"\x27".toList else [c])
    exact replaceList_singleton '\x27' _ _

/-! ## Scan lemmas for detect_authentication -/

theorem apiKeyHeaderScan_stable (headers : List (String × String)) (auth : AuthInfo)
    (h : auth.type ≠ "none") (names : List String) :
    apiKeyHeaderScan headers auth names = auth := by
  induction names with
  | nil => rfl
  | cons n rest ih =>
    have hb : (auth.type != "none") = true := by simp [h]
    simp [apiKeyHeaderScan, hb, ih]

theorem apiKeyQueryScan_stable (query_params : List (String × String)) (auth : AuthInfo)
    (h : auth.type ≠ "none") (names : List String) :
    apiKeyQueryScan query_params auth names = auth := by
  induction names with
  | nil => rfl
  | cons n rest ih =>
    have hb : (auth.type == "none") = false := by simp [h]
    simp [apiKeyQueryScan, hb, ih]

theorem apiKeyHeaderScan_location (headers : List (String × String)) (auth : AuthInfo)
    (names : List String) :
    (apiKeyHeaderScan headers auth names).location = auth.location ∨
    (apiKeyHeaderScan headers auth names).location = "header" := by
  induction names with
  | nil => left; rfl
  | cons n rest ih =>
    simp only [apiKeyHeaderScan]
    by_cases h1 : dictContains headers n
    · simp only [h1, if_true]
      by_cases h2 : (dictGetD headers n "" != "" && !(auth.type != "none")) = true
      · simp [h2]
      · simp only [h2, if_false]
        exact ih
    · simp only [h1, if_false]
      exact ih

theorem apiKeyQueryScan_query_guard (query_params : List (String × String)) (auth : AuthInfo)
    (names : List String) :
    (apiKeyQueryScan query_params auth names).location = "query" →
    auth.location = "query" ∨ auth.type = "none" := by
  induction names with
  | nil => intro h; left; exact h
  | cons n rest ih =>
    simp only [apiKeyQueryScan]
    by_cases h1 : dictContains query_params n
    · simp only [h1, if_true]
      by_cases h2 : (dictGetD query_params n "" != "" && (auth.type == "none")) = true
      · simp only [h2, if_true]
        intro _
        right
        have hand := (Bool.and_eq_true _ _).mp h2
        exact beq_iff_eq.mp hand.2
      · simp only [h2, if_false]
        exact ih
    · simp only [h1, if_false]
      exact ih

theorem apiKeyQueryScan_nil (auth : AuthInfo) (names : List String) :
    apiKeyQueryScan [] auth names = auth := by
  induction names with
  | nil => rfl
  | cons n rest ih => simp [apiKeyQueryScan, dictContains, ih]

theorem apiKeyHeaderScan_absent (headers : List (String × String)) (auth : AuthInfo)
    (names : List String) (h : ∀ p ∈ names, dictContains headers p = false) :
    apiKeyHeaderScan headers auth names = auth := by
  induction names with
  | nil => rfl
  | cons n rest ih =>
    have hn := h n (by simp)
    simp [apiKeyHeaderScan, hn, ih fun p hp => h p (by simp [hp])]

theorem apiKeyQueryScan_absent (query_params : List (String × String)) (auth : AuthInfo)
    (names : List String) (h : ∀ p ∈ names, dictContains query_params p = false) :
    apiKeyQueryScan query_params auth names = auth := by
  induction names with
  | nil => rfl
  | cons n rest ih =>
    have hn := h n (by simp)
    simp [apiKeyQueryScan, hn, ih fun p hp => h p (by simp [hp])]

/-! ## Claim C6 -/

theorem filter_api_requests_eq_filter (entries : List HarEntry) :
    filter_api_requests entries = entries.filter is_api_request := by
  induction entries with
  | nil => rfl
  | cons e es ih =>
    by_cases h : is_api_request e = true
    · simp [filter_api_requests, List.filter_cons, h, ih]
    · simp [filter_api_requests, List.filter_cons, h, ih]

theorem is_api_request_iff (e : HarEntry) :
    is_api_request e = true ↔
      ∀ t ∈ non_api_types,
        ¬ ContainsSubstring (pyLower (get_response_content_type e.response)) t := by
  simp only [is_api_request, List.all_eq_true]
  constructor
  · intro h t ht hc
    have hb := h t ht
    rw [← strContains_iff] at hc
    simp [hc] at hb
  · intro h t ht
    have hb := h t ht
    rw [← strContains_iff] at hb
    simpa using hb

/-- C6: `filter_api_requests` is exactly the order-preserving subsequence of
its input keeping the entries whose response `Content-Type` value does not
contain, case-insensitively, any of the non-API fragments; entries with no
discoverable `Content-Type` response header are retained. -/
theorem C6_filter_api_requests (entries : List HarEntry) :
    filter_api_requests entries = entries.filter is_api_request ∧
    (∀ e : HarEntry, is_api_request e = true ↔
      ∀ t ∈ non_api_types,
        ¬ ContainsSubstring (pyLower (get_response_content_type e.response)) t) ∧
    List.Sublist (filter_api_requests entries) entries ∧
    (∀ e ∈ entries,
      e.response.headers.find? (fun h => pyLower h.name == "content-type") = Option.none →
      e ∈ filter_api_requests entries) := by
  refine ⟨filter_api_requests_eq_filter entries, is_api_request_iff, ?_, ?_⟩
  · rw [filter_api_requests_eq_filter]
    exact List.filter_sublist entries
  · intro e he hfind
    rw [filter_api_requests_eq_filter, List.mem_filter]
    refine ⟨he, ?_⟩
    have hct : get_response_content_type e.response = "" := by
      unfold get_response_content_type
      rw [hfind]
    unfold is_api_request
    rw [hct]
    decide

/-- Witness for C6: an entry with no response headers passes the filter. -/
theorem C6_filter_api_requests_witness :
    (⟨⟨"GET", "https://x.test/a", [], [], Option.none⟩, ⟨[]⟩⟩ : HarEntry) ∈
      filter_api_requests
        [⟨⟨"GET", "https://x.test/a", [], [], Option.none⟩, ⟨[]⟩⟩,
         ⟨⟨"GET", "https://x.test/p", [], [], Option.none⟩,
          ⟨[⟨"Content-Type", "text/html"⟩]⟩⟩] :=
  (C6_filter_api_requests _).2.2.2 _ (by decide) rfl

/-! ## Claim C3 -/

/-- C3: detection priority.  A `bearer `-prefixed (case-insensitively)
`Authorization` header always yields `bearer_token` in the header, a
`basic `-prefixed one `basic_auth`, regardless of any API-key header or query
parameter; the query-parameter scan can only have fired when the header
phases left the type at `none`; and on headers carrying both
`Authorization: Bearer abc12345` and `x-api-key: xyz` the result is
`bearer_token`. -/
theorem C3_detection_priority (rd : RequestDetails) :
    (pyStartsWith (pyLower (dictGetD rd.headers "Authorization" "")) "bearer " = true →
      (detect_authentication rd).type = "bearer_token" ∧
      (detect_authentication rd).location = "header") ∧
    (pyStartsWith (pyLower (dictGetD rd.headers "Authorization" "")) "bearer " = false →
      pyStartsWith (pyLower (dictGetD rd.headers "Authorization" "")) "basic " = true →
      (detect_authentication rd).type = "basic_auth" ∧
      (detect_authentication rd).location = "header") ∧
    ((detect_authentication rd).location = "query" →
      (detect_authentication { rd with query_params := [] }).type = "none") ∧
    (rd.headers = [("Authorization", "Bearer abc12345"), ("x-api-key", "xyz")] →
      (detect_authentication rd).type = "bearer_token") := by
  have key : ∀ rd' : RequestDetails,
      pyStartsWith (pyLower (dictGetD rd'.headers "Authorization" "")) "bearer " = true →
      (detect_authentication rd').type = "bearer_token" ∧
      (detect_authentication rd').location = "header" := by
    intro rd' hb
    have h1 : authorization_header_check rd'.headers =
        { type := "bearer_token", location := "header",
          redacted_value := redact_sensitive_values
            (pyReplace (dictGetD rd'.headers "Authorization" "") "Bearer " ""),
          original_value := pyReplace (dictGetD rd'.headers "Authorization" "") "Bearer " "" } := by
      simp [authorization_header_check, hb]
    unfold detect_authentication
    rw [h1, apiKeyHeaderScan_stable _ _ (by simp) _, apiKeyQueryScan_stable _ _ (by simp) _]
    exact ⟨rfl, rfl⟩
  refine ⟨key rd, ?_, ?_, ?_⟩
  · intro hb hbasic
    have h1 : authorization_header_check rd.headers =
        { type := "basic_auth", location := "header",
          redacted_value := "Basic ********",
          original_value := dictGetD rd.headers "Authorization" "" } := by
      simp [authorization_header_check, hb, hbasic]
    unfold detect_authentication
    rw [h1, apiKeyHeaderScan_stable _ _ (by simp) _, apiKeyQueryScan_stable _ _ (by simp) _]
    exact ⟨rfl, rfl⟩
  · intro hq
    unfold detect_authentication at hq ⊢
    rw [apiKeyQueryScan_nil]
    rcases apiKeyQueryScan_query_guard _ _ _ hq with hloc | hty
    · exfalso
      rcases apiKeyHeaderScan_location rd.headers
          (authorization_header_check rd.headers) api_key_headers with h2 | h2
      · rw [h2] at hloc
        simp only [authorization_header_check] at hloc
        split_ifs at hloc <;> simp at hloc
      · rw [h2] at hloc
        simp at hloc
    · exact hty
  · intro hh
    exact (key rd (by rw [hh]; decide)).1

/-- Witness for C3 at the specification's concrete header set. -/
theorem C3_detection_priority_witness :
    (detect_authentication
      { method := "GET", url := "https://x.test/a", path := "/a", host := "x.test",
        scheme := "https",
        headers := [("Authorization", "Bearer abc12345"), ("x-api-key", "xyz")],
        query_params := [("api_key", "qqq")], path_params := [],
        body := BodyInfo.bodyNone }).type = "bearer_token" :=
  (C3_detection_priority _).2.2.2 rfl

/-! ## Claim C10 -/

theorem dictContains_of_dictGet_some (d : List (String × String)) (k v : String)
    (h : dictGet d k = some v) : dictContains d k = true := by
  unfold dictGet at h
  unfold dictContains
  cases hf : d.find? (fun p => p.1 == k) with
  | none => rw [hf] at h; simp at h
  | some p =>
    rw [List.any_eq_true]
    exact ⟨p, List.mem_of_find?_eq_some hf, (List.find?_eq_some.mp hf).1⟩

/-- C10: header-name lookups of the auth detector are case-sensitive.  A
lowercase `authorization` header (as in HTTP/2 captures) carrying a
`Bearer `-prefixed value is not seen by the bearer check (which reads only
the exact-case key `Authorization`) and instead lands in the API-key header
scan, yielding `api_key` in the header with the whole value redacted; and a
mixed-case `X-API-Key` header matches no candidate at all, leaving the type
at `none`. -/
theorem C10_case_sensitive_lookup (rd : RequestDetails) (v : String) :
    (dictGet rd.headers "Authorization" = Option.none →
     dictContains rd.headers "x-api-key" = false →
     dictContains rd.headers "api-key" = false →
     dictContains rd.headers "x-auth-token" = false →
     dictGet rd.headers "authorization" = some v →
     v ≠ "" →
     pyStartsWith v "Bearer " = true →
     detect_authentication rd =
       { type := "api_key", location := "header",
         redacted_value := redact_sensitive_values v, original_value := v }) ∧
    (dictGet rd.headers "Authorization" = Option.none →
     dictContains rd.headers "x-api-key" = false →
     dictContains rd.headers "api-key" = false →
     dictContains rd.headers "x-auth-token" = false →
     dictContains rd.headers "authorization" = false →
     (∀ p ∈ api_key_params, dictContains rd.query_params p = false) →
     detect_authentication rd =
       { type := "none", location := "none", redacted_value := "", original_value := "" }) := by
  have mk_none : dictGet rd.headers "Authorization" = Option.none →
      authorization_header_check rd.headers =
        { type := "none", location := "none", redacted_value := "", original_value := "" } := by
    intro hA
    have h0 : dictGetD rd.headers "Authorization" "" = "" := by simp [dictGetD, hA]
    have hb : pyStartsWith (pyLower (dictGetD rd.headers "Authorization" "")) "bearer " = false := by
      rw [h0]; decide
    have hb2 : pyStartsWith (pyLower (dictGetD rd.headers "Authorization" "")) "basic " = false := by
      rw [h0]; decide
    simp [authorization_header_check, hb, hb2]
  constructor
  · intro hA hx1 hx2 hx3 hv hvne _
    have hcont : dictContains rd.headers "authorization" = true :=
      dictContains_of_dictGet_some _ _ _ hv
    have hget : dictGetD rd.headers "authorization" "" = v := by simp [dictGetD, hv]
    have hscan : apiKeyHeaderScan rd.headers
        { type := "none", location := "none", redacted_value := "", original_value := "" }
        api_key_headers =
        { type := "api_key", location := "header",
          redacted_value := redact_sensitive_values v, original_value := v } := by
      simp only [api_key_headers, apiKeyHeaderScan, hx1, hx2, hx3, hcont, hget]
      simp [hvne]
    unfold detect_authentication
    rw [mk_none hA, hscan, apiKeyQueryScan_stable _ _ (by simp) _]
  · intro hA hx1 hx2 hx3 hx4 hqp
    have habs : ∀ p ∈ api_key_headers, dictContains rd.headers p = false := by
      intro p hp
      simp only [api_key_headers, List.mem_cons, List.mem_singleton] at hp
      rcases hp with rfl | rfl | rfl | hp
      · exact hx1
      · exact hx2
      · exact hx3
      · simp at hp
        rw [hp]
        exact hx4
    unfold detect_authentication
    rw [mk_none hA, apiKeyHeaderScan_absent _ _ _ habs, apiKeyQueryScan_absent _ _ _ hqp]

/-- Witness for C10: a lowercase `authorization: Bearer abc12345xyz` header is
detected as an API key with the whole value redacted, and a mixed-case
`X-API-Key` header alone is not detected. -/
theorem C10_case_sensitive_lookup_witness :
    detect_authentication
      { method := "GET", url := "https://x.test/a", path := "/a", host := "x.test",
        scheme := "https", headers := [("authorization", "Bearer abc12345xyz")],
        query_params := [], path_params := [], body := BodyInfo.bodyNone } =
      { type := "api_key", location := "header",
        redacted_value := redact_sensitive_values "Bearer abc12345xyz",
        original_value := "Bearer abc12345xyz" } ∧
    detect_authentication
      { method := "GET", url := "https://x.test/a", path := "/a", host := "x.test",
        scheme := "https", headers := [("X-API-Key", "xyz")],
        query_params := [], path_params := [], body := BodyInfo.bodyNone } =
      { type := "none", location := "none", redacted_value := "", original_value := "" } :=
  ⟨(C10_case_sensitive_lookup _ "Bearer abc12345xyz").1 rfl (by decide) (by decide)
      (by decide) rfl (by decide) (by decide),
   (C10_case_sensitive_lookup _ "").2 rfl (by decide) (by decide) (by decide) (by decide)
      (by decide)⟩

/-! ## Claim C7 -/

theorem dictGet_cons (p : String × String) (d : List (String × String)) (k : String) :
    dictGet (p :: d) k = if p.1 == k then some p.2 else dictGet d k := by
  by_cases h : (p.1 == k) = true
  · simp [dictGet, List.find?, h]
  · simp [dictGet, List.find?, h]

theorem dictGet_mapReplace (d : List (String × String)) (k v k' : String) :
    dictGet (d.map (fun p => if p.1 == k then (k, v) else p)) k' =
      if k' = k then (if d.any (fun p => p.1 == k) then some v else Option.none)
      else dictGet d k' := by
  induction d with
  | nil => by_cases h : k' = k <;> simp [dictGet, h]
  | cons p d ih =>
    simp only [List.map_cons, List.any_cons]
    by_cases hp : (p.1 == k) = true
    · have hp1 : p.1 = k := beq_iff_eq.mp hp
      by_cases hk : k' = k
      · subst hk
        rw [dictGet_cons]
        simp [hp, ih]
      · rw [if_pos hp, dictGet_cons]
        have hkk' : (k == k') = false := by
          simp
          exact fun e => hk e.symm
        rw [hkk']
        simp only [Bool.false_eq_true, if_false]
        rw [ih, if_neg hk, dictGet_cons]
        have hpk' : (p.1 == k') = false := by
          rw [hp1]
          simp
          exact fun e => hk e.symm
        rw [hpk']
        simp [hk]
    · rw [if_neg hp, dictGet_cons]
      by_cases hpk' : (p.1 == k') = true
      · have hp1 : p.1 = k' := beq_iff_eq.mp hpk'
        by_cases hk : k' = k
        · subst hk
          exact absurd hpk' hp
        · rw [if_pos hpk', if_neg hk, dictGet_cons, if_pos hpk']
      · rw [if_neg hpk', ih, dictGet_cons, if_neg hpk']
        have hpf : (p.1 == k) = false := by
          cases hb : (p.1 == k)
          · rfl
          · exact absurd hb hp
        by_cases hk : k' = k
        · simp only [hpf, Bool.false_or]
        · simp [hk]

theorem dictGet_append_single (d : List (String × String)) (k v k' : String)
    (hany : d.any (fun p => p.1 == k) = false) :
    dictGet (d ++ [(k, v)]) k' = if k' = k then some v else dictGet d k' := by
  unfold dictGet
  rw [List.find?_append]
  by_cases hk : k' = k
  · subst hk
    have hfind : d.find? (fun p => p.1 == k') = Option.none := by
      rw [List.find?_eq_none]
      intro p hp hbeq
      have hx : d.any (fun q => q.1 == k') = true := List.any_eq_true.mpr ⟨p, hp, hbeq⟩
      rw [hany] at hx
      simp at hx
    rw [hfind]
    simp
  · have hkk' : (k == k') = false := by
      simp
      exact fun e => hk e.symm
    simp [List.find?, hkk', hk]

theorem dictGet_dictInsert (d : List (String × String)) (k v k' : String) :
    dictGet (dictInsert d k v) k' = if k' = k then some v else dictGet d k' := by
  unfold dictInsert
  by_cases hany : d.any (fun p => p.1 == k) = true
  · rw [if_pos hany, dictGet_mapReplace]
    by_cases hk : k' = k <;> simp [hk, hany]
  · have hf : d.any (fun p => p.1 == k) = false := by
      cases hb : d.any (fun p => p.1 == k)
      · rfl
      · exact absurd hb hany
    rw [if_neg hany, dictGet_append_single d k v k' hf]

theorem mem_dictInsert (d : List (String × String)) (k v : String) (x : String × String)
    (hx : x ∈ dictInsert d k v) : x ∈ d ∨ x = (k, v) := by
  unfold dictInsert at hx
  by_cases hany : d.any (fun p => p.1 == k) = true
  · rw [if_pos hany] at hx
    obtain ⟨p, hp, hpe⟩ := List.mem_map.mp hx
    by_cases hpk : (p.1 == k) = true
    · right
      rw [← hpe, if_pos hpk]
    · left
      rw [← hpe, if_neg hpk]
      exact hp
  · rw [if_neg hany] at hx
    rcases List.mem_append.mp hx with h | h
    · left; exact h
    · right; simpa using h

theorem buildHeaderGo_keys (headers : List NVPair) :
    ∀ (d : List (String × String)), (∀ x ∈ d, keepHeaderName x.1 = true) →
    ∀ x ∈ headers.foldl
        (fun d h => if keepHeaderName h.name then dictInsert d h.name h.value else d) d,
      keepHeaderName x.1 = true := by
  induction headers with
  | nil => intro d hd x hx; exact hd x hx
  | cons h hs ih =>
    intro d hd x hx
    simp only [List.foldl_cons] at hx
    by_cases hk : keepHeaderName h.name = true
    · rw [if_pos hk] at hx
      refine ih _ ?_ x hx
      intro y hy
      rcases mem_dictInsert _ _ _ _ hy with hy' | hy'
      · exact hd y hy'
      · rw [hy']
        exact hk
    · rw [if_neg hk] at hx
      exact ih _ hd x hx

theorem buildHeaderGo_lookup (headers : List NVPair) :
    ∀ (d : List (String × String)) (k : String),
      dictGet (headers.foldl
          (fun d h => if keepHeaderName h.name then dictInsert d h.name h.value else d) d) k =
        ((if keepHeaderName k = true then specLastVal headers k else Option.none).or
          (dictGet d k)) := by
  induction headers with
  | nil =>
    intro d k
    simp [specLastVal]
  | cons h hs ih =>
    intro d k
    simp only [List.foldl_cons]
    rw [ih]
    have hspec : specLastVal (h :: hs) k =
        (specLastVal hs k).or (if h.name == k then some h.value else Option.none) := by
      unfold specLastVal
      rw [List.reverse_cons, List.find?_append]
      cases hf : hs.reverse.find? (fun x => x.name == k) with
      | none =>
        by_cases hnm : (h.name == k) = true
        · simp [List.find?, hnm]
        · simp [List.find?, hnm]
      | some p => simp [hf]
    rw [hspec]
    by_cases hkeep : keepHeaderName h.name = true
    · rw [if_pos hkeep, dictGet_dictInsert]
      by_cases hk : keepHeaderName k = true
      · rw [if_pos hk, if_pos hk]
        by_cases hnm : (h.name == k) = true
        · have hke : k = h.name := (beq_iff_eq.mp hnm).symm
          rw [if_pos hnm, if_pos hke]
          cases specLastVal hs k <;> simp
        · have hke : ¬ k = h.name := fun e => by simp [e] at hnm
          rw [if_neg hnm, if_neg hke]
          simp
      · rw [if_neg hk, if_neg hk]
        by_cases hke : k = h.name
        · rw [hke] at hk
          exact absurd hkeep hk
        · simp [hke]
    · rw [if_neg hkeep]
      by_cases hk : keepHeaderName k = true
      · rw [if_pos hk, if_pos hk]
        by_cases hnm : (h.name == k) = true
        · have : h.name = k := beq_iff_eq.mp hnm
          rw [this] at hkeep
          exact absurd hk hkeep
        · rw [if_neg hnm]
          simp
      · rw [if_neg hk, if_neg hk]

theorem buildHeaderDict_lookup (headers : List NVPair) (k : String) :
    dictGet (buildHeaderDict headers) k =
      if keepHeaderName k = true then specLastVal headers k else Option.none := by
  unfold buildHeaderDict
  rw [buildHeaderGo_lookup]
  cases hi : (if keepHeaderName k = true then specLastVal headers k else Option.none) with
  | none => simp [dictGet]
  | some w => simp [dictGet]

/-- C7 (amended): every key of the extracted header mapping survives the
filter (no colon-prefixed name, no problematic lowercased name), and every
kept request header name appears as a key, bound to the value of its last
occurrence in the entry (later duplicates override earlier ones). -/
theorem C7_header_filtering (urlparse : String → UrlParts)
    (jsonLoads : String → Option Json)
    (parseQs : String → Option (List (String × List String)))
    (entry : HarEntry) :
    (∀ x ∈ (extract_request_details urlparse jsonLoads parseQs entry).headers,
      pyStartsWith x.1 ":" = false ∧ pyLower x.1 ∉ problematic_header_names) ∧
    (∀ h ∈ entry.request.headers, keepHeaderName h.name = true →
      dictGet (extract_request_details urlparse jsonLoads parseQs entry).headers h.name =
        specLastVal entry.request.headers h.name ∧
      (specLastVal entry.request.headers h.name).isSome = true) := by
  have hhd : (extract_request_details urlparse jsonLoads parseQs entry).headers =
      buildHeaderDict entry.request.headers := rfl
  constructor
  · intro x hx
    rw [hhd] at hx
    have hkeep := buildHeaderGo_keys entry.request.headers []
      (by intro y hy; simp at hy) x hx
    unfold keepHeaderName at hkeep
    have hor : (pyStartsWith x.1 ":" ||
        problematic_header_names.contains (pyLower x.1)) = false := by
      simpa using hkeep
    have h1 : pyStartsWith x.1 ":" = false := by
      cases hb : pyStartsWith x.1 ":"
      · rfl
      · rw [hb] at hor; simp at hor
    have h2 : problematic_header_names.contains (pyLower x.1) = false := by
      cases hb : problematic_header_names.contains (pyLower x.1)
      · rfl
      · rw [hb] at hor; simp at hor
    refine ⟨h1, fun hmem => ?_⟩
    have : problematic_header_names.contains (pyLower x.1) = true := by
      simp [List.contains, List.elem_iff, hmem]
    rw [this] at h2
    simp at h2
  · intro h hmem hkeep
    rw [hhd, buildHeaderDict_lookup, if_pos hkeep]
    refine ⟨rfl, ?_⟩
    unfold specLastVal
    rw [Option.isSome_map', List.find?_isSome]
    exact ⟨h, by rw [List.mem_reverse]; exact hmem, by simp⟩

/-- C7 counterexample: on an entry with two occurrences of the header name
`X-Dup`, the earlier occurrence does not appear in the extracted mapping with
its value — the later binding overwrites it — so the claim's universal
"every other request header appears in the mapping with its value" is false
at this entry. -/
theorem C7_counterexample :
    ¬ (∀ h ∈ ([⟨"X-Dup", "1"⟩, ⟨"X-Dup", "2"⟩] : List NVPair),
        keepHeaderName h.name = true →
        dictGet (extract_request_details (fun _ => ⟨"https", "x.test", "/a"⟩)
            (fun _ => Option.none) (fun _ => Option.none)
            { request :=
                { method := "GET"
                  url := "https://x.test/a"
                  headers := [⟨"X-Dup", "1"⟩, ⟨"X-Dup", "2"⟩]
                  queryString := []
                  postData := Option.none }
              response := { headers := [] } }).headers h.name = some h.value) := by
  intro hall
  have h1 := hall ⟨"X-Dup", "1"⟩ (by decide) (by decide)
  exact absurd h1 (by decide)

/-- Witness for C7 at an entry mixing kept, dropped and pseudo headers. -/
theorem C7_header_filtering_witness :
    (pyStartsWith "Authorization" ":" = false ∧
      pyLower "Authorization" ∉ problematic_header_names) ∧
    dictGet (extract_request_details (fun _ => ⟨"https", "x.test", "/a"⟩)
        (fun _ => Option.none) (fun _ => Option.none)
        { request :=
            { method := "GET"
              url := "https://x.test/a"
              headers := [⟨"Authorization", "Bearer x"⟩, ⟨"Host", "x.test"⟩,
                ⟨":method", "GET"⟩]
              queryString := []
              postData := Option.none }
          response := { headers := [] } }).headers "Authorization" =
      specLastVal [⟨"Authorization", "Bearer x"⟩, ⟨"Host", "x.test"⟩,
        ⟨":method", "GET"⟩] "Authorization" := by
  refine ⟨?_, ?_⟩
  · exact (C7_header_filtering (fun _ => ⟨"https", "x.test", "/a"⟩)
      (fun _ => Option.none) (fun _ => Option.none)
      { request :=
          { method := "GET"
            url := "https://x.test/a"
            headers := [⟨"Authorization", "Bearer x"⟩, ⟨"Host", "x.test"⟩,
              ⟨":method", "GET"⟩]
            queryString := []
            postData := Option.none }
        response := { headers := [] } }).1 ("Authorization", "Bearer x") (by decide)
  · exact ((C7_header_filtering (fun _ => ⟨"https", "x.test", "/a"⟩)
      (fun _ => Option.none) (fun _ => Option.none)
      { request :=
          { method := "GET"
            url := "https://x.test/a"
            headers := [⟨"Authorization", "Bearer x"⟩, ⟨"Host", "x.test"⟩,
              ⟨":method", "GET"⟩]
            queryString := []
            postData := Option.none }
        response := { headers := [] } }).2 ⟨"Authorization", "Bearer x"⟩
      (by decide) (by decide)).1

/-! ## Claim C8 -/

/-- C8: body-variant selection never propagates a parse failure.  For every
choice of the stdlib parsers, the result is the `none` variant exactly when
there is no (truthy) `postData`; and for present post data the result is the
`text` variant carrying the raw payload exactly when neither typed branch
succeeds — in particular a MIME type containing `application/json` whose text
fails to parse (or containing the form type whose text fails to parse as form
data, with the other branch not succeeding either) falls through to `text`. -/
theorem C8_body_fallback (jsonLoads : String → Option Json)
    (parseQs : String → Option (List (String × List String)))
    (pd : Option PostData) :
    (parse_request_body jsonLoads parseQs pd = BodyInfo.bodyNone ↔ pd = Option.none) ∧
    (∀ pdv, pd = some pdv →
      (parse_request_body jsonLoads parseQs pd = BodyInfo.bodyText pdv.text pdv.text ↔
        ¬(strContains pdv.mimeType "application/json" = true ∧ pdv.text ≠ "" ∧
            (jsonLoads pdv.text).isSome = true) ∧
        ¬(strContains pdv.mimeType "application/x-www-form-urlencoded" = true ∧
            pdv.text ≠ "" ∧ (parseQs pdv.text).isSome = true))) := by
  cases pd with
  | none =>
    exact ⟨by simp [parse_request_body], fun pdv h => nomatch h⟩
  | some pdv0 =>
    by_cases hj : (strContains pdv0.mimeType "application/json" && (pdv0.text != "")) = true
    · cases hl : jsonLoads pdv0.text with
      | some j =>
        have hres : parse_request_body jsonLoads parseQs (some pdv0) =
            BodyInfo.bodyJson j pdv0.text := by
          simp [parse_request_body, hj, hl]
        refine ⟨by rw [hres]; simp, ?_⟩
        intro pdv h
        injection h with h'
        subst h'
        rw [hres]
        constructor
        · intro hfalse
          cases hfalse
        · rintro ⟨hn1, -⟩
          exfalso
          apply hn1
          have hand := (Bool.and_eq_true _ _).mp hj
          exact ⟨hand.1, by simpa using hand.2, by rw [hl]; rfl⟩
      | none =>
        by_cases hf : (strContains pdv0.mimeType "application/x-www-form-urlencoded" &&
            (pdv0.text != "")) = true
        · cases hq : parseQs pdv0.text with
          | some f =>
            have hres : parse_request_body jsonLoads parseQs (some pdv0) =
                BodyInfo.bodyForm f pdv0.text := by
              simp [parse_request_body, hj, hl, hf, hq]
            refine ⟨by rw [hres]; simp, ?_⟩
            intro pdv h
            injection h with h'
            subst h'
            rw [hres]
            constructor
            · intro hfalse
              cases hfalse
            · rintro ⟨-, hn2⟩
              exfalso
              apply hn2
              have hand := (Bool.and_eq_true _ _).mp hf
              exact ⟨hand.1, by simpa using hand.2, by rw [hq]; rfl⟩
          | none =>
            have hres : parse_request_body jsonLoads parseQs (some pdv0) =
                BodyInfo.bodyText pdv0.text pdv0.text := by
              simp [parse_request_body, hj, hl, hf, hq]
            refine ⟨by rw [hres]; simp, ?_⟩
            intro pdv h
            injection h with h'
            subst h'
            rw [hres]
            constructor
            · intro _
              refine ⟨?_, ?_⟩
              · rintro ⟨-, -, hsome⟩
                rw [hl] at hsome
                simp at hsome
              · rintro ⟨-, -, hsome⟩
                rw [hq] at hsome
                simp at hsome
            · intro _
              rfl
        · have hres : parse_request_body jsonLoads parseQs (some pdv0) =
              BodyInfo.bodyText pdv0.text pdv0.text := by
            simp [parse_request_body, hj, hl, hf]
          refine ⟨by rw [hres]; simp, ?_⟩
          intro pdv h
          injection h with h'
          subst h'
          rw [hres]
          constructor
          · intro _
            refine ⟨?_, ?_⟩
            · rintro ⟨-, -, hsome⟩
              rw [hl] at hsome
              simp at hsome
            · rintro ⟨hc, hne, -⟩
              exact hf (by simp [hc, hne])
          · intro _
            rfl
    · by_cases hf : (strContains pdv0.mimeType "application/x-www-form-urlencoded" &&
          (pdv0.text != "")) = true
      · cases hq : parseQs pdv0.text with
        | some f =>
          have hres : parse_request_body jsonLoads parseQs (some pdv0) =
              BodyInfo.bodyForm f pdv0.text := by
            simp [parse_request_body, hj, hf, hq]
          refine ⟨by rw [hres]; simp, ?_⟩
          intro pdv h
          injection h with h'
          subst h'
          rw [hres]
          constructor
          · intro hfalse
            cases hfalse
          · rintro ⟨-, hn2⟩
            exfalso
            apply hn2
            have hand := (Bool.and_eq_true _ _).mp hf
            exact ⟨hand.1, by simpa using hand.2, by rw [hq]; rfl⟩
        | none =>
          have hres : parse_request_body jsonLoads parseQs (some pdv0) =
              BodyInfo.bodyText pdv0.text pdv0.text := by
            simp [parse_request_body, hj, hf, hq]
          refine ⟨by rw [hres]; simp, ?_⟩
          intro pdv h
          injection h with h'
          subst h'
          rw [hres]
          constructor
          · intro _
            refine ⟨?_, ?_⟩
            · rintro ⟨hc, hne, -⟩
              exact hj (by simp [hc, hne])
            · rintro ⟨-, -, hsome⟩
              rw [hq] at hsome
              simp at hsome
          · intro _
            rfl
      · have hres : parse_request_body jsonLoads parseQs (some pdv0) =
            BodyInfo.bodyText pdv0.text pdv0.text := by
          simp [parse_request_body, hj, hf]
        refine ⟨by rw [hres]; simp, ?_⟩
        intro pdv h
        injection h with h'
        subst h'
        rw [hres]
        constructor
        · intro _
          refine ⟨?_, ?_⟩
          · rintro ⟨hc, hne, -⟩
            exact hj (by simp [hc, hne])
          · rintro ⟨hc, hne, -⟩
            exact hf (by simp [hc, hne])
        · intro _
          rfl

/-- Witness for C8: a malformed JSON-typed body (every parse fails under the
all-failing parsers) falls through to the text variant with the raw payload,
and an absent post data yields the `none` variant. -/
theorem C8_body_fallback_witness :
    parse_request_body (fun _ => Option.none) (fun _ => Option.none)
      (some ⟨"application/json", "not json"⟩) =
      BodyInfo.bodyText "not json" "not json" ∧
    (parse_request_body (fun _ => Option.none) (fun _ => Option.none) Option.none =
      BodyInfo.bodyNone ↔ (Option.none : Option PostData) = Option.none) :=
  ⟨((C8_body_fallback (fun _ => Option.none) (fun _ => Option.none)
      (some ⟨"application/json", "not json"⟩)).2 ⟨"application/json", "not json"⟩
      rfl).mpr (by
        refine ⟨?_, ?_⟩
        · rintro ⟨-, -, hsome⟩
          simp at hsome
        · rintro ⟨-, -, hsome⟩
          simp at hsome),
   (C8_body_fallback (fun _ => Option.none) (fun _ => Option.none) Option.none).1⟩

/-! ## Claim C1 -/

theorem containsSubstring_of_drop (s pat : String) (i : Nat)
    (h : pat.toList.isPrefixOf (s.toList.drop i) = true) : ContainsSubstring s pat := by
  rw [List.isPrefixOf_iff_prefix] at h
  obtain ⟨t, ht⟩ := h
  refine ⟨s.toList.take i, t, ?_⟩
  conv_lhs => rw [← List.take_append_drop i s.toList]
  rw [← ht, List.append_assoc]

/-- C1: the unmasked credential leaks into the projections.  On a model whose
`Authorization` header carries a bearer token, authentication is detected
(type `bearer_token`), the detector's `original_value` is the live token and
differs from its `redacted_value`, yet the markdown documentation (via the
headers table and the embedded cURL example) and the generated Python code
(via the headers dict literal) both contain the unmasked token verbatim. -/
theorem C1_unmasked_credential_in_projections :
    let rd : RequestDetails :=
      { method := "GET", url := "https://x.test/a", path := "/a", host := "x.test",
        scheme := "https", headers := [("Authorization", "Bearer secrettoken12345")],
        query_params := [], path_params := [], body := BodyInfo.bodyNone }
    (detect_authentication rd).type = "bearer_token" ∧
    (detect_authentication rd).original_value = "secrettoken12345" ∧
    (detect_authentication rd).redacted_value ≠ (detect_authentication rd).original_value ∧
    (∃ doc, generate_documentation rd (detect_authentication rd) "markdown" = Except.ok doc ∧
      ContainsSubstring doc (detect_authentication rd).original_value) ∧
    (∃ code, generate_code rd "python" = Except.ok code ∧
      ContainsSubstring code (detect_authentication rd).original_value) := by
  refine ⟨by decide, by decide, by decide, ⟨_, rfl, ?_⟩, ⟨_, rfl, ?_⟩⟩
  · exact containsSubstring_of_drop _ _ 324 (by decide)
  · exact containsSubstring_of_drop _ _ 66 (by decide)

/-- Witness for C5 at the specification's example entry. -/
theorem C5_curl_projection_witness :
    generate_curl_command
      { request :=
          { method := "GET"
            url := "https://x.test/a?b=1"
            headers := [{ name := "Authorization", value := "Bearer 1234567890" }]
            queryString := [{ name := "b", value := "1" }]
            postData := Option.none }
        response := { headers := [] } } =
      String.intercalate " \\\n  " (curl_parts
        { request :=
            { method := "GET"
              url := "https://x.test/a?b=1"
              headers := [{ name := "Authorization", value := "Bearer 1234567890" }]
              queryString := [{ name := "b", value := "1" }]
              postData := Option.none }
          response := { headers := [] } }) :=
  (C5_curl_projection
    { request :=
        { method := "GET"
          url := "https://x.test/a?b=1"
          headers := [{ name := "Authorization", value := "Bearer 1234567890" }]
          queryString := [{ name := "b", value := "1" }]
          postData := Option.none }
      response := { headers := [] } }).1
